import Mathlib

/-!
Verification of the soundraw-game-bgm MCP server core: the parameter-mapper
functions (energy segment generation, layer-to-stem mapping), the scene
analyzer's post-parse validation, the music-generation poll protocol, the
tool handlers and the dispatch layer, shallowly embedded in Lean 4.

Durations and segment boundaries are real-valued in the source (JavaScript
numbers used only through exact divisions by 2 and 4); they are embedded as
rationals.  String-literal unions (`'processing' | 'done' | 'failed'`) become
inductives; other string data stays `String`.  External primitives
(`JSON.parse`, the HTTP clients, the LLM oracle) are abstracted as function
parameters, matching how the handlers consume them.
-/

namespace SoundrawBgm

/-- One energy segment `{start, end, energy}` as produced by the mappers.
The source field `end` is embedded as `stop` (`end` is a Lean keyword);
`energy` keeps the source's string levels (`"Muted"`, `"Low"`, `"Medium"`,
`"High"`, `"Very High"`). -/
structure EnergySegment where
  start : ℚ
  stop : ℚ
  energy : String
deriving DecidableEq

/-- Embeds `getEnergyLevels` from src/unnamed/part_002 (the generate-bgm
tool module): maps an energy-profile keyword and a duration to a segment
list, with `steady` doubling as the `default` switch branch. -/
def getEnergyLevels (profile : String) (durationSeconds : ℚ) : List EnergySegment :=
  let midpoint := durationSeconds / 2
  let quarter := durationSeconds / 4
  if profile = "building" then
    [⟨0, quarter, "Low"⟩,
     ⟨quarter, midpoint, "Medium"⟩,
     ⟨midpoint, quarter * 3, "High"⟩,
     ⟨quarter * 3, durationSeconds, "Very High"⟩]
  else if profile = "climax" then
    [⟨0, quarter, "High"⟩,
     ⟨quarter, durationSeconds, "Very High"⟩]
  else if profile = "ambient" then
    [⟨0, durationSeconds, "Low"⟩]
  else
    [⟨0, durationSeconds, "Medium"⟩]

/-- The TypeScript default value of `getEnergyPreset`'s `durationSeconds`
parameter (`durationSeconds: number = 60` in src/src/tools/get-variations.ts). -/
def getEnergyPresetDefaultDuration : ℚ := 60

/-- Embeds `getEnergyPreset` from src/src/tools/get-variations.ts: maps an
energy-preset keyword and a duration to a segment list, with `steady`
doubling as the `default` switch branch.  Lean has no default arguments
here; call sites that omit the duration pass
`getEnergyPresetDefaultDuration` explicitly. -/
def getEnergyPreset (preset : String) (durationSeconds : ℚ) : List EnergySegment :=
  let quarter := durationSeconds / 4
  if preset = "building" then
    [⟨0, quarter, "Low"⟩,
     ⟨quarter, quarter * 2, "Medium"⟩,
     ⟨quarter * 2, quarter * 3, "High"⟩,
     ⟨quarter * 3, durationSeconds, "Very High"⟩]
  else if preset = "climax" then
    [⟨0, durationSeconds, "Very High"⟩]
  else if preset = "fade_out" then
    [⟨0, quarter, "High"⟩,
     ⟨quarter, quarter * 2, "Medium"⟩,
     ⟨quarter * 2, quarter * 3, "Low"⟩,
     ⟨quarter * 3, durationSeconds, "Muted"⟩]
  else
    [⟨0, durationSeconds, "Medium"⟩]

/-- A segment list forms a contiguous chain from `a` to `d`: each segment
starts where its predecessor stopped (the first at `a`), never goes
backwards, and the last segment stops at `d`. -/
def chainSpans : ℚ → List EnergySegment → ℚ → Prop
  | a, [], d => a = d
  | a, s :: rest, d => s.start = a ∧ a ≤ s.stop ∧ chainSpans s.stop rest d

/-- The set of time points covered by a segment list (closed segments). -/
def unionOfSegments (segs : List EnergySegment) : Set ℚ :=
  ⋃ s ∈ segs, Set.Icc s.start s.stop

lemma unionOfSegments_nil : unionOfSegments [] = ∅ := by
  simp [unionOfSegments]

lemma unionOfSegments_cons (s : EnergySegment) (rest : List EnergySegment) :
    unionOfSegments (s :: rest) = Set.Icc s.start s.stop ∪ unionOfSegments rest := by
  simp [unionOfSegments]

lemma chainSpans_le {a d : ℚ} : ∀ {segs : List EnergySegment},
    chainSpans a segs d → a ≤ d := by
  intro segs
  induction segs generalizing a with
  | nil => intro h; exact le_of_eq h
  | cons s rest ih =>
    intro h
    exact le_trans h.2.1 (ih h.2.2)

lemma chainSpans_union {a d : ℚ} : ∀ {segs : List EnergySegment},
    segs ≠ [] → chainSpans a segs d → unionOfSegments segs = Set.Icc a d := by
  intro segs
  induction segs generalizing a with
  | nil => intro h; exact absurd rfl h
  | cons s rest ih =>
    intro _ h
    obtain ⟨hstart, hle, hrest⟩ := h
    rcases rest with _ | ⟨t, rest'⟩
    · have hstop : s.stop = d := hrest
      rw [unionOfSegments_cons, unionOfSegments_nil, Set.union_empty, hstart, hstop]
    · rw [unionOfSegments_cons, hstart,
        ih (List.cons_ne_nil t rest') hrest,
        Set.Icc_union_Icc_eq_Icc hle (chainSpans_le hrest)]

lemma chainSpans_start_ge {a d : ℚ} : ∀ {segs : List EnergySegment},
    chainSpans a segs d → ∀ t ∈ segs, a ≤ t.start := by
  intro segs
  induction segs generalizing a with
  | nil => intro _ t ht; exact absurd ht (List.not_mem_nil t)
  | cons s rest ih =>
    intro h t ht
    obtain ⟨hstart, hle, hrest⟩ := h
    rcases List.mem_cons.mp ht with h1 | h2
    · subst h1; exact le_of_eq hstart.symm
    · exact le_trans hle (ih hrest t h2)

lemma chainSpans_pairwise {a d : ℚ} : ∀ {segs : List EnergySegment},
    chainSpans a segs d →
    List.Pairwise (fun s t => s.stop ≤ t.start) segs := by
  intro segs
  induction segs generalizing a with
  | nil => intro _; exact List.Pairwise.nil
  | cons s rest ih =>
    intro h
    exact List.Pairwise.cons (chainSpans_start_ge h.2.2) (ih h.2.2)

lemma chainSpans_chain' {a d : ℚ} : ∀ {segs : List EnergySegment},
    chainSpans a segs d →
    List.Chain' (fun s t => s.stop = t.start) segs := by
  intro segs
  induction segs generalizing a with
  | nil => intro _; exact List.chain'_nil
  | cons s rest ih =>
    intro h
    rcases rest with _ | ⟨t, rest'⟩
    · exact List.chain'_singleton s
    · exact List.Chain'.cons h.2.2.1.symm (ih h.2.2)

lemma getEnergyLevels_chainSpans (profile : String) (d : ℚ) (hd : 0 < d) :
    chainSpans 0 (getEnergyLevels profile d) d := by
  unfold getEnergyLevels
  by_cases hb : profile = "building"
  · simp only [hb, if_true]
    exact ⟨rfl, by linarith, rfl, by linarith, rfl, by linarith, rfl, by linarith, rfl⟩
  · by_cases hc : profile = "climax"
    · simp only [hb, hc, if_false, if_true]
      exact ⟨rfl, by linarith, rfl, by linarith, rfl⟩
    · by_cases ha : profile = "ambient"
      · simp only [hb, hc, ha, if_false, if_true]
        exact ⟨rfl, le_of_lt hd, rfl⟩
      · simp only [hb, hc, ha, if_false]
        exact ⟨rfl, le_of_lt hd, rfl⟩

lemma getEnergyLevels_ne_nil (profile : String) (d : ℚ) :
    getEnergyLevels profile d ≠ [] := by
  unfold getEnergyLevels
  by_cases hb : profile = "building" <;> by_cases hc : profile = "climax" <;>
    by_cases ha : profile = "ambient" <;> simp [hb, hc, ha]

lemma getEnergyLevels_strict (profile : String) (d : ℚ) (hd : 0 < d) :
    ∀ s ∈ getEnergyLevels profile d, s.start < s.stop := by
  unfold getEnergyLevels
  by_cases hb : profile = "building"
  · rw [if_pos hb]
    simp only [List.forall_mem_cons, List.not_mem_nil, false_implies, implies_true,
      and_true]
    refine ⟨?_, ?_, ?_, ?_⟩ <;> linarith
  · rw [if_neg hb]
    by_cases hc : profile = "climax"
    · rw [if_pos hc]
      simp only [List.forall_mem_cons, List.not_mem_nil, false_implies, implies_true,
        and_true]
      refine ⟨?_, ?_⟩ <;> linarith
    · rw [if_neg hc]
      by_cases ha : profile = "ambient"
      · rw [if_pos ha]
        simp only [List.forall_mem_cons, List.not_mem_nil, false_implies,
          implies_true, and_true]
        exact hd
      · rw [if_neg ha]
        simp only [List.forall_mem_cons, List.not_mem_nil, false_implies,
          implies_true, and_true]
        exact hd

/-- C2.  For every duration `d > 0` and every profile string (the four named
profiles and, through the `default` branch, any unrecognized input),
`getEnergyLevels` returns a nonempty list of segments that starts at 0,
is contiguous (each segment's start equals the previous segment's stop),
has strictly increasing segments, is non-overlapping, ends at `d`, and
whose union is exactly the closed interval `[0, d]`. -/
theorem getEnergyLevels_covers_duration (profile : String) (d : ℚ) (hd : 0 < d) :
    getEnergyLevels profile d ≠ [] ∧
    chainSpans 0 (getEnergyLevels profile d) d ∧
    List.Chain' (fun s t => s.stop = t.start) (getEnergyLevels profile d) ∧
    (∀ s ∈ getEnergyLevels profile d, s.start < s.stop) ∧
    List.Pairwise (fun s t => s.stop ≤ t.start) (getEnergyLevels profile d) ∧
    unionOfSegments (getEnergyLevels profile d) = Set.Icc 0 d := by
  have hchain := getEnergyLevels_chainSpans profile d hd
  exact ⟨getEnergyLevels_ne_nil profile d, hchain,
    chainSpans_chain' hchain,
    getEnergyLevels_strict profile d hd,
    chainSpans_pairwise hchain,
    chainSpans_union (getEnergyLevels_ne_nil profile d) hchain⟩

/-- Witness for C2: the property instantiated at profile `"building"` and
duration 60. -/
theorem getEnergyLevels_covers_duration_witness :
    getEnergyLevels "building" 60 ≠ [] ∧
    chainSpans 0 (getEnergyLevels "building" 60) 60 ∧
    List.Chain' (fun s t => s.stop = t.start) (getEnergyLevels "building" 60) ∧
    (∀ s ∈ getEnergyLevels "building" 60, s.start < s.stop) ∧
    List.Pairwise (fun s t => s.stop ≤ t.start) (getEnergyLevels "building" 60) ∧
    unionOfSegments (getEnergyLevels "building" 60) = Set.Icc 0 60 :=
  getEnergyLevels_covers_duration "building" 60 (by norm_num)

lemma getEnergyPreset_chainSpans (preset : String) (d : ℚ) (hd : 0 < d) :
    chainSpans 0 (getEnergyPreset preset d) d := by
  unfold getEnergyPreset
  by_cases hb : preset = "building"
  · rw [if_pos hb]
    exact ⟨rfl, by linarith, rfl, by linarith, rfl, by linarith, rfl, by linarith, rfl⟩
  · rw [if_neg hb]
    by_cases hc : preset = "climax"
    · rw [if_pos hc]
      exact ⟨rfl, le_of_lt hd, rfl⟩
    · rw [if_neg hc]
      by_cases hf : preset = "fade_out"
      · rw [if_pos hf]
        exact ⟨rfl, by linarith, rfl, by linarith, rfl, by linarith, rfl, by linarith,
          rfl⟩
      · rw [if_neg hf]
        exact ⟨rfl, le_of_lt hd, rfl⟩

lemma getEnergyPreset_ne_nil (preset : String) (d : ℚ) :
    getEnergyPreset preset d ≠ [] := by
  unfold getEnergyPreset
  by_cases hb : preset = "building" <;> by_cases hc : preset = "climax" <;>
    by_cases hf : preset = "fade_out" <;> simp [hb, hc, hf]

/-- C3 counterexample.  At duration 60 the energy-level sequence of
`getEnergyPreset "fade_out"` is not the reverse of that of
`getEnergyPreset "building"`: the former is High, Medium, Low, Muted while
the reversed latter is Very High, High, Medium, Low. -/
theorem preset_fadeOut_not_reverse_of_building :
    ¬ ((getEnergyPreset "fade_out" 60).map EnergySegment.energy =
        ((getEnergyPreset "building" 60).map EnergySegment.energy).reverse) := by
  decide

/-- Maps each energy level to the level one rank below it, with `"Muted"`
as the floor (Very High to High, High to Medium, Medium to Low, Low to
Muted). -/
def lowerEnergyLevel (e : String) : String :=
  if e = "Very High" then "High"
  else if e = "High" then "Medium"
  else if e = "Medium" then "Low"
  else "Muted"

/-- C3 amended.  For every duration `d`, `getEnergyPreset "fade_out"` is the
mirror of `getEnergyPreset "building"` with every energy level lowered one
rank: its segment boundaries are identical, segment-for-segment, and its
i-th energy level is one rank below the (n-i+1)-th energy level of the
building preset (so the sequences are High, Medium, Low, Muted against
Low, Medium, High, Very High, not exact reverses of each other). -/
theorem preset_fadeOut_is_lowered_mirror_of_building (d : ℚ) :
    (getEnergyPreset "fade_out" d).map EnergySegment.energy =
      (((getEnergyPreset "building" d).map EnergySegment.energy).reverse).map
        lowerEnergyLevel ∧
    (getEnergyPreset "fade_out" d).map (fun s => (s.start, s.stop)) =
      (getEnergyPreset "building" d).map (fun s => (s.start, s.stop)) := by
  constructor <;> rfl

/-- Embeds `SOUNDRAW_STEMS` from src/src/types/index.ts: the six stem codes. -/
def SOUNDRAW_STEMS : List String := ["bc", "bs", "dr", "me", "fe", "ff"]

/-- Embeds `LAYER_TO_STEMS` from src/src/tools/adaptive-layers.ts: maps a
layer name to the stem codes to mute (everything except that layer's own
stem); a record lookup that misses yields `none` (`undefined` in the
source). -/
def LAYER_TO_STEMS (layer : String) : Option (List String) :=
  if layer = "backing" then some ["bs", "dr", "me", "fe", "ff"]
  else if layer = "bass" then some ["bc", "dr", "me", "fe", "ff"]
  else if layer = "drums" then some ["bc", "bs", "me", "fe", "ff"]
  else if layer = "melody" then some ["bc", "bs", "dr", "fe", "ff"]
  else none

/-- The stem code of each primary layer, per the source comments in
src/src/tools/adaptive-layers.ts (backing bc, bass bs, drums dr, melody me). -/
def primaryStemCode (layer : String) : String :=
  if layer = "backing" then "bc"
  else if layer = "bass" then "bs"
  else if layer = "drums" then "dr"
  else "me"

/-- C5.  Each of the four recognized layer names maps to exactly the stem
codes of the other three primary layers together with both auxiliary fill
codes `fe` and `ff` — that is, every stem code except the requested
layer's own — and never contains the layer's own code.  In particular
`LAYER_TO_STEMS "drums"` excludes `dr` and contains `bc`, `bs`, `me`,
`fe`, `ff`. -/
theorem LAYER_TO_STEMS_mutes_all_but_own (layer : String)
    (h : layer ∈ ["backing", "bass", "drums", "melody"]) :
    LAYER_TO_STEMS layer =
      some (SOUNDRAW_STEMS.filter (fun c => c ≠ primaryStemCode layer)) ∧
    ∀ stems, LAYER_TO_STEMS layer = some stems →
      primaryStemCode layer ∉ stems ∧
      ∀ c ∈ SOUNDRAW_STEMS, c ≠ primaryStemCode layer → c ∈ stems := by
  fin_cases h <;> exact ⟨by decide, by decide⟩

/-- Witness for C5: the drums instance, spelled out on the concrete lists. -/
theorem LAYER_TO_STEMS_mutes_all_but_own_witness :
    LAYER_TO_STEMS "drums" =
      some (SOUNDRAW_STEMS.filter (fun c => c ≠ primaryStemCode "drums")) ∧
    ∀ stems, LAYER_TO_STEMS "drums" = some stems →
      primaryStemCode "drums" ∉ stems ∧
      ∀ c ∈ SOUNDRAW_STEMS, c ≠ primaryStemCode "drums" → c ∈ stems :=
  LAYER_TO_STEMS_mutes_all_but_own "drums" (by decide)

/-- Embeds `SOUNDRAW_MOODS` from src/src/types/index.ts. -/
def SOUNDRAW_MOODS : List String :=
  ["Angry", "Busy & Frantic", "Dark", "Dreamy", "Elegant", "Epic", "Euphoric",
   "Fear", "Funny & Weird", "Glamorous", "Happy", "Heavy & Ponderous", "Hopeful",
   "Laid Back", "Mysterious", "Peaceful", "Restless", "Romantic", "Running",
   "Sad", "Scary", "Sentimental", "Sexy", "Smooth", "Suspense"]

/-- Embeds `SOUNDRAW_GENRES` from src/src/types/index.ts. -/
def SOUNDRAW_GENRES : List String :=
  ["Acoustic", "Hip Hop", "Beats", "Funk", "Pop", "Drum n Bass", "Trap",
   "Tokyo night pop", "Rock", "Latin", "House", "Tropical House", "Ambient",
   "Orchestra", "Electro & Dance", "Electronica", "Techno & Trance",
   "Jersey Club", "Drill", "R&B", "Lofi Hip Hop", "World", "Afrobeats",
   "Christmas"]

/-- Embeds `SOUNDRAW_THEMES` from src/src/types/index.ts. -/
def SOUNDRAW_THEMES : List String :=
  ["Ads & Trailers", "Broadcasting", "Cinematic", "Corporate", "Comedy",
   "Cooking", "Documentary", "Drama", "Fashion & Beauty", "Gaming",
   "Holiday Season", "Horror & Thriller", "Motivational & Inspiring", "Nature",
   "Photography", "Sports & Action", "Technology", "Travel", "Tutorials",
   "Vlogs", "Wedding & Romance", "Workout & Wellness"]

/-- Embeds the `DeepSeekMusicParams` interface from src/src/types/index.ts
(the tempo and energy-profile string-literal unions stay `String`, as the
parsed JSON is only asserted, not checked, in the source). -/
structure DeepSeekMusicParams where
  moods : List String
  genres : List String
  themes : List String
  tempo : String
  energy_profile : String
  reasoning : String
deriving DecidableEq

/-- Embeds the `DeepSeekTransitionParams` interface from
src/src/types/index.ts. -/
structure DeepSeekTransitionParams where
  from_mood : String
  to_mood : String
  moods : List String
  genres : List String
  themes : List String
  tempo : String
  energy_levels : List EnergySegment
  reasoning : String
deriving DecidableEq

/-- Embeds the post-parse validation block of `analyzeSceneForMusic` in
src/src/services/deepseek.ts: filter each category to the closed
vocabulary, then substitute a fixed single default if the filter emptied
it (Epic, Orchestra, Gaming). -/
def validateMusicParams (p : DeepSeekMusicParams) : DeepSeekMusicParams :=
  let moods := p.moods.filter (fun m => decide (m ∈ SOUNDRAW_MOODS))
  let genres := p.genres.filter (fun g => decide (g ∈ SOUNDRAW_GENRES))
  let themes := p.themes.filter (fun t => decide (t ∈ SOUNDRAW_THEMES))
  { p with
    moods := if moods = [] then ["Epic"] else moods,
    genres := if genres = [] then ["Orchestra"] else genres,
    themes := if themes = [] then ["Gaming"] else themes }

/-- Embeds the post-parse validation block of `analyzeTransition` in
src/src/services/deepseek.ts (defaults Suspense, Orchestra, Cinematic). -/
def validateTransitionParams (p : DeepSeekTransitionParams) : DeepSeekTransitionParams :=
  let moods := p.moods.filter (fun m => decide (m ∈ SOUNDRAW_MOODS))
  let genres := p.genres.filter (fun g => decide (g ∈ SOUNDRAW_GENRES))
  let themes := p.themes.filter (fun t => decide (t ∈ SOUNDRAW_THEMES))
  { p with
    moods := if moods = [] then ["Suspense"] else moods,
    genres := if genres = [] then ["Orchestra"] else genres,
    themes := if themes = [] then ["Cinematic"] else themes }

/-- Filtering a list to a vocabulary and defaulting to a fixed in-vocabulary
single element when the filter comes back empty: the filtered list is kept
verbatim when nonempty, an empty filter result is replaced by exactly one
element, and everything returned lies in the vocabulary. -/
lemma filterOrDefault_props (l vocab : List String) (dflt : String)
    (hd : dflt ∈ vocab) :
    ((l.filter (fun x => decide (x ∈ vocab)) ≠ []) →
      (if l.filter (fun x => decide (x ∈ vocab)) = [] then [dflt]
       else l.filter (fun x => decide (x ∈ vocab))) =
        l.filter (fun x => decide (x ∈ vocab))) ∧
    ((l.filter (fun x => decide (x ∈ vocab)) = []) →
      (if l.filter (fun x => decide (x ∈ vocab)) = [] then [dflt]
       else l.filter (fun x => decide (x ∈ vocab))).length = 1) ∧
    (∀ m ∈ (if l.filter (fun x => decide (x ∈ vocab)) = [] then [dflt]
            else l.filter (fun x => decide (x ∈ vocab))), m ∈ vocab) := by
  by_cases hf : l.filter (fun x => decide (x ∈ vocab)) = []
  · rw [if_pos hf]
    refine ⟨fun h => absurd hf h, fun _ => rfl, ?_⟩
    intro m hm
    rw [List.mem_singleton] at hm
    subst hm
    exact hd
  · rw [if_neg hf]
    refine ⟨fun _ => rfl, fun h => absurd h hf, ?_⟩
    intro m hm
    have := (List.mem_filter.mp hm).2
    exact of_decide_eq_true this

/-- C6.  For every successfully parsed oracle reply (scene analysis and
transition analysis alike), each of the moods, genres and themes lists is
filtered to its intersection with the corresponding closed vocabulary; a
category whose filter comes back nonempty is kept verbatim, a category
emptied by the filter is replaced by exactly one fixed default value (a
single-element list), every returned element lies in the vocabulary, and
the validation returns normally (it is a total function). -/
theorem validation_filters_and_defaults (p : DeepSeekMusicParams)
    (t : DeepSeekTransitionParams) :
    (((p.moods.filter (fun m => decide (m ∈ SOUNDRAW_MOODS)) ≠ []) →
        (validateMusicParams p).moods =
          p.moods.filter (fun m => decide (m ∈ SOUNDRAW_MOODS))) ∧
     ((p.moods.filter (fun m => decide (m ∈ SOUNDRAW_MOODS)) = []) →
        (validateMusicParams p).moods.length = 1) ∧
     (∀ m ∈ (validateMusicParams p).moods, m ∈ SOUNDRAW_MOODS)) ∧
    (((p.genres.filter (fun g => decide (g ∈ SOUNDRAW_GENRES)) ≠ []) →
        (validateMusicParams p).genres =
          p.genres.filter (fun g => decide (g ∈ SOUNDRAW_GENRES))) ∧
     ((p.genres.filter (fun g => decide (g ∈ SOUNDRAW_GENRES)) = []) →
        (validateMusicParams p).genres.length = 1) ∧
     (∀ g ∈ (validateMusicParams p).genres, g ∈ SOUNDRAW_GENRES)) ∧
    (((p.themes.filter (fun x => decide (x ∈ SOUNDRAW_THEMES)) ≠ []) →
        (validateMusicParams p).themes =
          p.themes.filter (fun x => decide (x ∈ SOUNDRAW_THEMES))) ∧
     ((p.themes.filter (fun x => decide (x ∈ SOUNDRAW_THEMES)) = []) →
        (validateMusicParams p).themes.length = 1) ∧
     (∀ x ∈ (validateMusicParams p).themes, x ∈ SOUNDRAW_THEMES)) ∧
    (((t.moods.filter (fun m => decide (m ∈ SOUNDRAW_MOODS)) ≠ []) →
        (validateTransitionParams t).moods =
          t.moods.filter (fun m => decide (m ∈ SOUNDRAW_MOODS))) ∧
     ((t.moods.filter (fun m => decide (m ∈ SOUNDRAW_MOODS)) = []) →
        (validateTransitionParams t).moods.length = 1) ∧
     (∀ m ∈ (validateTransitionParams t).moods, m ∈ SOUNDRAW_MOODS)) ∧
    (((t.genres.filter (fun g => decide (g ∈ SOUNDRAW_GENRES)) ≠ []) →
        (validateTransitionParams t).genres =
          t.genres.filter (fun g => decide (g ∈ SOUNDRAW_GENRES))) ∧
     ((t.genres.filter (fun g => decide (g ∈ SOUNDRAW_GENRES)) = []) →
        (validateTransitionParams t).genres.length = 1) ∧
     (∀ g ∈ (validateTransitionParams t).genres, g ∈ SOUNDRAW_GENRES)) ∧
    (((t.themes.filter (fun x => decide (x ∈ SOUNDRAW_THEMES)) ≠ []) →
        (validateTransitionParams t).themes =
          t.themes.filter (fun x => decide (x ∈ SOUNDRAW_THEMES))) ∧
     ((t.themes.filter (fun x => decide (x ∈ SOUNDRAW_THEMES)) = []) →
        (validateTransitionParams t).themes.length = 1) ∧
     (∀ x ∈ (validateTransitionParams t).themes, x ∈ SOUNDRAW_THEMES)) :=
  ⟨filterOrDefault_props p.moods SOUNDRAW_MOODS "Epic" (by decide),
   filterOrDefault_props p.genres SOUNDRAW_GENRES "Orchestra" (by decide),
   filterOrDefault_props p.themes SOUNDRAW_THEMES "Gaming" (by decide),
   filterOrDefault_props t.moods SOUNDRAW_MOODS "Suspense" (by decide),
   filterOrDefault_props t.genres SOUNDRAW_GENRES "Orchestra" (by decide),
   filterOrDefault_props t.themes SOUNDRAW_THEMES "Cinematic" (by decide)⟩

/-- A scene-analysis reply whose moods and themes are swept away by the
vocabulary filter while the genre survives, used to witness C6. -/
def offVocabParams : DeepSeekMusicParams :=
  ⟨["NotAMood"], ["Orchestra"], [], "high", "climax", "r"⟩

/-- A transition-analysis reply whose categories are all off-vocabulary. -/
def offVocabTransition : DeepSeekTransitionParams :=
  ⟨"a", "b", ["NotAMood"], ["NotAGenre"], ["NotATheme"], "low", [], "r"⟩

/-- Witness for C6: an off-vocabulary mood list is replaced by exactly one
default, a surviving genre list is kept verbatim, and the transition
variant substitutes a single default theme. -/
theorem validation_filters_and_defaults_witness :
    (validateMusicParams offVocabParams).moods.length = 1 ∧
    (validateMusicParams offVocabParams).genres =
      offVocabParams.genres.filter (fun g => decide (g ∈ SOUNDRAW_GENRES)) ∧
    (validateTransitionParams offVocabTransition).themes.length = 1 :=
  ⟨(validation_filters_and_defaults offVocabParams offVocabTransition).1.2.1
      (by decide),
   (validation_filters_and_defaults offVocabParams offVocabTransition).2.1.1
      (by decide),
   (validation_filters_and_defaults offVocabParams offVocabTransition).2.2.2.2.2.2.1
      (by decide)⟩

/-- Whitespace as stripped by `trim` (space, tab, line and page breaks). -/
def isTrimmableChar (c : Char) : Bool :=
  decide (c = ' ') || decide (c = '\t') || decide (c = '\n') ||
    decide (c = '\x0d') || decide (c = '\x0b') || decide (c = '\x0c')

/-- Strips leading and trailing whitespace from a character list (the
`.trim()` calls of src/src/services/deepseek.ts, at the character level). -/
def trimChars (l : List Char) : List Char :=
  ((l.dropWhile isTrimmableChar).reverse.dropWhile isTrimmableChar).reverse

/-- Character-level `startsWith`. -/
def startsWithChars (pre l : List Char) : Bool :=
  l.take pre.length = pre

/-- Character-level `endsWith`. -/
def endsWithChars (suf l : List Char) : Bool :=
  l.reverse.take suf.length = suf.reverse

/-- One attempted match of the fence-marker pattern from
src/src/services/deepseek.ts at the head of the character list.  The
pattern is three backticks, then the letters jso, an optional n and an
optional newline, longest match first, as the greedy regex matches it;
on success the consumed characters are dropped. -/
def matchFence (l : List Char) : Option (List Char) :=
  if l.take 8 = "```json\n".data then some (l.drop 8)
  else if l.take 7 = "```json".data then some (l.drop 7)
  else if l.take 7 = "```jso\n".data then some (l.drop 7)
  else if l.take 6 = "```jso".data then some (l.drop 6)
  else none

/-- Global replacement of the fence-marker pattern by the empty string
(the first `.replace` call): scan left to right, dropping every
non-overlapping match.  The fuel argument makes the recursion structural;
every step consumes at least one character, so fuel equal to the list
length (as `stripFenceMarkers` passes it) never runs out early. -/
def stripFenceMarkersFuel : ℕ → List Char → List Char
  | 0, l => l
  | _ + 1, [] => []
  | fuel + 1, c :: cs =>
    match matchFence (c :: cs) with
    | some rest => stripFenceMarkersFuel fuel rest
    | none => c :: stripFenceMarkersFuel fuel cs

/-- The fence-marker replacement at its natural fuel. -/
def stripFenceMarkers (l : List Char) : List Char :=
  stripFenceMarkersFuel l.length l

/-- Embeds the fence-stripping prelude of `analyzeSceneForMusic` and
`analyzeTransition` in src/src/services/deepseek.ts: trim the reply; when
it opens with three backticks, delete every fence-marker occurrence, drop
a trailing triple backtick, and trim again. -/
def stripFence (content : String) : String :=
  let jsonStr := trimChars content.data
  if startsWithChars "```".data jsonStr then
    let s1 := stripFenceMarkers jsonStr
    let s2 := if endsWithChars "```".data s1 then s1.take (s1.length - 3) else s1
    String.mk (trimChars s2)
  else String.mk jsonStr

/-- Embeds the reply-handling tail of `analyzeSceneForMusic` in
src/src/services/deepseek.ts.  `JSON.parse` together with the unchecked
cast to `DeepSeekMusicParams` is the platform primitive, abstracted as the
`parse` parameter; a parse failure is the caught-and-rethrown error branch
and a parse success flows into the vocabulary validation. -/
def analyzeSceneReply (parse : String → Option DeepSeekMusicParams)
    (content : String) : Except String DeepSeekMusicParams :=
  match parse (stripFence content) with
  | some params => Except.ok (validateMusicParams params)
  | none => Except.error ("Failed to parse music parameters: " ++ content)

/-- C7.  A reply whose fence-stripped text does not parse as JSON makes the
scene analyzer raise an error for that call, with no partial result (the
error branch carries only a message) and no retry (`parse` is consulted
exactly once, on the single stripped text); a reply that parses
successfully never produces a parse error, flowing instead into the
vocabulary validation. -/
theorem analyzeSceneReply_error_iff_parse_fails
    (parse : String → Option DeepSeekMusicParams) (content : String) :
    (parse (stripFence content) = none →
      analyzeSceneReply parse content =
        Except.error ("Failed to parse music parameters: " ++ content)) ∧
    (∀ p, parse (stripFence content) = some p →
      analyzeSceneReply parse content = Except.ok (validateMusicParams p)) := by
  constructor
  · intro h
    simp [analyzeSceneReply, h]
  · intro p h
    simp [analyzeSceneReply, h]

/-- A toy parse oracle that accepts exactly the two-character text of an
empty JSON object. -/
def emptyObjectParse (s : String) : Option DeepSeekMusicParams :=
  if s = "\x7b\x7d" then some ⟨[], [], [], "", "", ""⟩ else none

/-- Witness for C7: a non-JSON reply errors, and a fenced empty-object
reply parses and is validated. -/
theorem analyzeSceneReply_error_iff_parse_fails_witness :
    analyzeSceneReply emptyObjectParse "not json" =
      Except.error ("Failed to parse music parameters: " ++ "not json") ∧
    analyzeSceneReply emptyObjectParse "```json\n\x7b\x7d\n```" =
      Except.ok (validateMusicParams ⟨[], [], [], "", "", ""⟩) :=
  ⟨(analyzeSceneReply_error_iff_parse_fails emptyObjectParse "not json").1
      (by decide),
   (analyzeSceneReply_error_iff_parse_fails emptyObjectParse
      "```json\n\x7b\x7d\n```").2 ⟨[], [], [], "", "", ""⟩ (by decide)⟩

/-- Embeds the result payload of `SoundrawResultResponse` from
src/src/types/index.ts (bpm is a string there; length is a number). -/
structure SoundrawResult where
  bpm : String
  share_link : String
  length : ℚ
  timestamps : List EnergySegment
  m4a_url : Option String
  mp3_url : Option String
  wav_url : Option String
deriving DecidableEq

/-- The job status union `'processing' | 'done' | 'failed'` of
`SoundrawResultResponse` in src/src/types/index.ts. -/
inductive JobStatus
  | processing
  | done
  | failed
deriving DecidableEq

/-- Embeds `SoundrawResultResponse` from src/src/types/index.ts (the
`endpoint` and `params` echo fields, unused by every caller in src/, are
omitted). -/
structure SoundrawResultResponse where
  request_id : String
  status : JobStatus
  result : Option SoundrawResult
deriving DecidableEq

/-- Modelled from the spec: the two terminal error outcomes of the Music
Generation Client's poll loop (`pollForResult` in services/soundraw.ts is
absent from src/; only its callers and the response types are present).
Exhausting the attempt budget is a timeout error distinct, by
construction, from the error raised on a `failed` status, which identifies
the request id. -/
inductive PollError
  | timeout
  | jobFailed (request_id : String)
deriving DecidableEq

/-- Modelled from the spec: the poll loop sleeps a fixed 2 seconds between
result checks. -/
def POLL_INTERVAL_SECONDS : ℕ := 2

/-- Modelled from the spec: the poll loop gives up after a fixed maximum of
150 attempts (a 5-minute ceiling at 2 seconds per attempt). -/
def MAX_POLL_ATTEMPTS : ℕ := 150

/-- Modelled from the spec: the poll loop of the Music Generation Client.
`respond` abstracts the result endpoint, giving the (already parsed)
response to the i-th GET; `remaining` is the attempt budget left and
`made` the number of polls performed so far.  A `done` response returns
the payload, a `failed` response raises the job-failure error, a
`processing` response consumes one attempt and retries after the fixed
sleep, and an exhausted budget raises the timeout error.  The second
component counts the polls performed. -/
def pollAux (respond : ℕ → SoundrawResultResponse) :
    ℕ → ℕ → Except PollError SoundrawResultResponse × ℕ
  | 0, made => (Except.error PollError.timeout, made)
  | remaining + 1, made =>
    let resp := respond made
    match resp.status with
    | JobStatus.done => (Except.ok resp, made + 1)
    | JobStatus.failed => (Except.error (PollError.jobFailed resp.request_id), made + 1)
    | JobStatus.processing => pollAux respond remaining (made + 1)

/-- Modelled from the spec: poll the result resource with the full attempt
budget. -/
def pollForResult (respond : ℕ → SoundrawResultResponse) :
    Except PollError SoundrawResultResponse × ℕ :=
  pollAux respond MAX_POLL_ATTEMPTS 0

lemma pollAux_all_processing (respond : ℕ → SoundrawResultResponse) :
    ∀ (r made : ℕ),
      (∀ i, made ≤ i → i < made + r → (respond i).status = JobStatus.processing) →
      pollAux respond r made = (Except.error PollError.timeout, made + r) := by
  intro r
  induction r with
  | zero => intro made _; rfl
  | succ n ih =>
    intro made h
    have hm : (respond made).status = JobStatus.processing :=
      h made le_rfl (by omega)
    show (match (respond made).status with
      | JobStatus.done => (Except.ok (respond made), made + 1)
      | JobStatus.failed =>
          (Except.error (PollError.jobFailed (respond made).request_id), made + 1)
      | JobStatus.processing => pollAux respond n (made + 1)) =
        (Except.error PollError.timeout, made + (n + 1))
    rw [hm]
    have := ih (made + 1) (fun i h1 h2 => h i (by omega) (by omega))
    rw [this]
    have harith : made + 1 + n = made + (n + 1) := by omega
    rw [harith]

lemma pollAux_count_le (respond : ℕ → SoundrawResultResponse) :
    ∀ (r made : ℕ), (pollAux respond r made).2 ≤ made + r := by
  intro r
  induction r with
  | zero => intro made; exact le_rfl
  | succ n ih =>
    intro made
    show (match (respond made).status with
      | JobStatus.done => (Except.ok (respond made), made + 1)
      | JobStatus.failed =>
          (Except.error (PollError.jobFailed (respond made).request_id), made + 1)
      | JobStatus.processing => pollAux respond n (made + 1)).2 ≤ made + (n + 1)
    rcases hs : (respond made).status with _ | _ | _
    · show (pollAux respond n (made + 1)).2 ≤ made + (n + 1)
      have := ih (made + 1)
      omega
    · show made + 1 ≤ made + (n + 1)
      omega
    · show made + 1 ≤ made + (n + 1)
      omega

/-- C1 (modelled from the spec; the client implementation is absent from
src/).  For every sequence of poll responses, the loop performs at most
`MAX_POLL_ATTEMPTS` checks, each separated by the fixed 2-second sleep
(150 polls at 2 seconds is the 5-minute ceiling); when no terminal status
appears within the budget it raises the timeout error after exactly
`MAX_POLL_ATTEMPTS` polls, not more, not fewer; and that timeout error
differs from the error raised for a `failed` status. -/
theorem pollForResult_timeout_exactly_at_max
    (respond : ℕ → SoundrawResultResponse)
    (h : ∀ i, i < MAX_POLL_ATTEMPTS → (respond i).status = JobStatus.processing) :
    pollForResult respond = (Except.error PollError.timeout, MAX_POLL_ATTEMPTS) ∧
    (∀ f : ℕ → SoundrawResultResponse, (pollForResult f).2 ≤ MAX_POLL_ATTEMPTS) ∧
    (∀ rid, PollError.timeout ≠ PollError.jobFailed rid) ∧
    POLL_INTERVAL_SECONDS * MAX_POLL_ATTEMPTS = 300 := by
  refine ⟨?_, ?_, ?_, rfl⟩
  · have := pollAux_all_processing respond MAX_POLL_ATTEMPTS 0
      (fun i h1 h2 => h i (by omega))
    simpa [pollForResult] using this
  · intro f
    have := pollAux_count_le f MAX_POLL_ATTEMPTS 0
    simpa [pollForResult] using this
  · intro rid hcontra
    exact PollError.noConfusion hcontra

/-- A result endpoint that never reaches a terminal status. -/
def alwaysProcessing : ℕ → SoundrawResultResponse :=
  fun _ => ⟨"req-1", JobStatus.processing, none⟩

/-- Witness for C1: against the never-terminal endpoint the loop times out
at exactly the attempt ceiling. -/
theorem pollForResult_timeout_exactly_at_max_witness :
    pollForResult alwaysProcessing =
      (Except.error PollError.timeout, MAX_POLL_ATTEMPTS) ∧
    (∀ f : ℕ → SoundrawResultResponse, (pollForResult f).2 ≤ MAX_POLL_ATTEMPTS) ∧
    (∀ rid, PollError.timeout ≠ PollError.jobFailed rid) ∧
    POLL_INTERVAL_SECONDS * MAX_POLL_ATTEMPTS = 300 :=
  pollForResult_timeout_exactly_at_max alwaysProcessing (fun _ _ => rfl)

/-- Numeric value of a decimal digit character, if it is one. -/
def charDigit (c : Char) : Option ℕ :=
  if 48 ≤ c.toNat ∧ c.toNat ≤ 57 then some (c.toNat - 48) else none

/-- Reads a run of decimal digits left to right into an accumulator. -/
def natOfDigitsAux : List Char → ℕ → Option ℕ
  | [], acc => some acc
  | c :: cs, acc =>
    match charDigit c with
    | some d => natOfDigitsAux cs (acc * 10 + d)
    | none => none

/-- Modelled from the spec: the generation service reports bpm as a string
of digits and the output objects declare it as a number, so extraction
reads the digits as an integer (0 when the string is not numeric). -/
def parseBpm (s : String) : ℕ :=
  (natOfDigitsAux s.data 0).getD 0

/-- The flattened result record produced by extraction, as consumed by the
tool handlers in src/ (`share_link`, `audio_url`, `request_id`,
`duration_seconds`, `bpm`, `timestamps`). -/
structure ExtractedResult where
  share_link : String
  audio_url : String
  request_id : String
  duration_seconds : ℚ
  bpm : ℕ
  timestamps : List EnergySegment
deriving DecidableEq

/-- Modelled from the spec: `extractResult` of services/soundraw.ts is
absent from src/ (only its callers and the response types are present).
Given a terminal response and a requested output format, it selects the
matching URL field among m4a, mp3 and wav; when the requested format's
URL is absent it falls back in the fixed priority order m4a, then mp3,
then wav; when all are absent it yields the empty string — a soft
failure, not an error.  A response without a result payload (not
exercised by any claim) yields empty fields. -/
def extractResult (resp : SoundrawResultResponse) (format : String) :
    ExtractedResult :=
  match resp.result with
  | none => ⟨"", "", resp.request_id, 0, 0, []⟩
  | some r =>
    let requested :=
      if format = "m4a" then r.m4a_url
      else if format = "mp3" then r.mp3_url
      else if format = "wav" then r.wav_url
      else none
    let url := requested.orElse fun _ =>
      (r.m4a_url.orElse fun _ => (r.mp3_url.orElse fun _ => r.wav_url))
    ⟨r.share_link, url.getD "", resp.request_id, r.length, parseBpm r.bpm,
      r.timestamps⟩

/-- Embeds `SoundrawComposeRequest` from src/src/types/index.ts. -/
structure SoundrawComposeRequest where
  length : ℚ
  moods : Option (List String)
  genres : Option (List String)
  themes : Option (List String)
  tempo : Option (List String)
  file_format : Option (List String)
  mute_stems : Option (List String)
  energy_levels : Option (List EnergySegment)
deriving DecidableEq

/-- Embeds `SoundrawSimilarRequest` from src/src/types/index.ts. -/
structure SoundrawSimilarRequest where
  share_link : String
  length : Option ℚ
  tempo : Option (List String)
  file_format : Option (List String)
  mute_stems : Option (List String)
deriving DecidableEq

/-- Embeds `SoundrawCustomizeRequest` from src/src/types/index.ts. -/
structure SoundrawCustomizeRequest where
  share_link : String
  energy_levels : Option (List EnergySegment)
  mute_stems : Option (List String)
  file_format : Option (List String)
deriving DecidableEq

/-- Embeds the input record validated by `AdaptiveLayerInputSchema`
(src/src/types/index.ts), with optional fields as options. -/
structure AdaptiveLayerInput where
  share_link : String
  layers_to_keep : List String
  file_format : Option String
deriving DecidableEq

/-- Embeds `AdaptiveLayerInputSchema.parse`: the zod schema requires every
element of `layers_to_keep` to come from the enum of the four layer names
and `file_format`, when present, from the three formats; any violation
makes parsing throw.  The `.url()` refinement on `share_link` (a zod
internal) is not modelled; claims exercise it only with URL-shaped
strings. -/
def parseAdaptiveLayerInput (raw : AdaptiveLayerInput) :
    Except String AdaptiveLayerInput :=
  if raw.layers_to_keep.all
      (fun l => decide (l ∈ ["backing", "bass", "drums", "melody"])) then
    match raw.file_format with
    | some f =>
      if f ∈ (["m4a", "mp3", "wav"] : List String) then Except.ok raw
      else Except.error "Invalid enum value in file_format"
    | none => Except.ok raw
  else Except.error "Invalid enum value in layers_to_keep"

/-- One entry of the `layers` array assembled by `handleAdaptiveLayers`. -/
structure LayerResult where
  name : String
  mute_stems : List String
  share_link : String
  audio_url : String
  request_id : String
deriving DecidableEq

/-- Embeds `AdaptiveLayerOutput` from src/src/types/index.ts.  The
`integration_code` field, an opaque generated text template, is out of
scope and omitted. -/
structure AdaptiveLayerOutput where
  layers : List LayerResult
  base_share_link : String
deriving DecidableEq

/-- Embeds the per-layer loop of `handleAdaptiveLayers`
(src/src/tools/adaptive-layers.ts): for each requested layer, look up its
mute set in `LAYER_TO_STEMS`, skipping the layer with a logged warning
when the lookup misses; otherwise submit one customize job (the client is
the `customize` parameter) and collect the extracted result; a client
error aborts the whole call, as the uncaught exception does in the
source. -/
def processLayers
    (customize : SoundrawCustomizeRequest →
      Except String (SoundrawResultResponse × String))
    (link fileFormat : String) : List String → Except String (List LayerResult)
  | [] => Except.ok []
  | layerName :: rest =>
    match LAYER_TO_STEMS layerName with
    | none => processLayers customize link fileFormat rest
    | some muteStems =>
      match customize ⟨link, none, some muteStems, some [fileFormat]⟩ with
      | Except.error e => Except.error e
      | Except.ok (result, format) =>
        let extracted := extractResult result format
        match processLayers customize link fileFormat rest with
        | Except.error e => Except.error e
        | Except.ok tail =>
          Except.ok (⟨layerName, muteStems, extracted.share_link,
            extracted.audio_url, extracted.request_id⟩ :: tail)

/-- Embeds `handleAdaptiveLayers` from src/src/tools/adaptive-layers.ts:
validate the input, default the format to m4a, process the requested
layers in order, and assemble the output. -/
def handleAdaptiveLayers
    (customize : SoundrawCustomizeRequest →
      Except String (SoundrawResultResponse × String))
    (args : AdaptiveLayerInput) : Except String AdaptiveLayerOutput :=
  match parseAdaptiveLayerInput args with
  | Except.error e => Except.error e
  | Except.ok input =>
    let fileFormat := input.file_format.getD "m4a"
    match processLayers customize input.share_link fileFormat
        input.layers_to_keep with
    | Except.error e => Except.error e
    | Except.ok layers => Except.ok ⟨layers, input.share_link⟩

/-- A terminal `done` response used by the stubbed generation client. -/
def doneResponse : SoundrawResultResponse :=
  ⟨"req-7", JobStatus.done,
    some ⟨"120", "https://soundraw.io/edit_music?m=layer", 60, [],
      some "https://cdn.example/drums.m4a", none, none⟩⟩

/-- A stubbed generation client that succeeds for every customize request,
in particular for the drums request. -/
def stubSucceedingClient :
    SoundrawCustomizeRequest → Except String (SoundrawResultResponse × String) :=
  fun _ => Except.ok (doneResponse, "m4a")

/-- The C4 scenario input: one recognized layer and one unknown layer. -/
def unknownLayerArgs : AdaptiveLayerInput :=
  ⟨"https://soundraw.io/edit_music?m=base", ["drums", "unknown_layer"], none⟩

/-- C4 counterexample.  With a stubbed client that succeeds for the drums
request, the call with `layers_to_keep = ["drums", "unknown_layer"]` does
not produce one layer result without raising: the zod enum on
`layers_to_keep` rejects `"unknown_layer"` during input parsing, so the
whole call raises a validation error before any layer is processed, and
the skip-with-warning branch never runs. -/
theorem adaptiveLayers_unknown_layer_counterexample :
    handleAdaptiveLayers stubSucceedingClient unknownLayerArgs =
      Except.error "Invalid enum value in layers_to_keep" ∧
    ¬ ∃ out, handleAdaptiveLayers stubSucceedingClient unknownLayerArgs =
        Except.ok out ∧ out.layers.map LayerResult.name = ["drums"] := by
  refine ⟨rfl, ?_⟩
  rintro ⟨out, hout, -⟩
  rw [show handleAdaptiveLayers stubSucceedingClient unknownLayerArgs =
      Except.error "Invalid enum value in layers_to_keep" from rfl] at hout
  exact Except.noConfusion hout

/-- C4 amended.  A `layers_to_keep` entry outside the four recognized names
is rejected by input validation, so the call with
`["drums", "unknown_layer"]` raises a validation error (returned as an
error, before the generation client is ever consulted) and produces no
layer results; with the valid list `["drums"]` alone, a client that
succeeds for the drums request yields exactly one layer result, for
drums, with the drums mute set.  The handler's skip-with-warning branch
applies only to names that pass validation but miss the stem map, which
the schema enum makes unreachable. -/
theorem adaptiveLayers_unknown_rejected_valid_processed
    (customize : SoundrawCustomizeRequest →
      Except String (SoundrawResultResponse × String))
    (resp : SoundrawResultResponse) (format : String)
    (h : customize ⟨"https://soundraw.io/edit_music?m=base", none,
        some ["bc", "bs", "me", "fe", "ff"], some ["m4a"]⟩ =
      Except.ok (resp, format)) :
    handleAdaptiveLayers customize unknownLayerArgs =
      Except.error "Invalid enum value in layers_to_keep" ∧
    ∃ out, handleAdaptiveLayers customize
        ⟨"https://soundraw.io/edit_music?m=base", ["drums"], none⟩ =
          Except.ok out ∧
      out.layers.map LayerResult.name = ["drums"] ∧
      out.layers.map LayerResult.mute_stems = [["bc", "bs", "me", "fe", "ff"]] := by
  refine ⟨rfl, ?_⟩
  refine ⟨(⟨[⟨"drums", ["bc", "bs", "me", "fe", "ff"],
      (extractResult resp format).share_link,
      (extractResult resp format).audio_url,
      (extractResult resp format).request_id⟩],
    "https://soundraw.io/edit_music?m=base"⟩ : AdaptiveLayerOutput), ?_, rfl, rfl⟩
  show (match processLayers customize "https://soundraw.io/edit_music?m=base"
      "m4a" ["drums"] with
    | Except.error e => Except.error e
    | Except.ok layers =>
        Except.ok (⟨layers, "https://soundraw.io/edit_music?m=base"⟩ :
          AdaptiveLayerOutput)) = _
  show (match (match customize ⟨"https://soundraw.io/edit_music?m=base", none,
      some ["bc", "bs", "me", "fe", "ff"], some ["m4a"]⟩ with
    | Except.error e => Except.error e
    | Except.ok (result, format') =>
      match (Except.ok [] : Except String (List LayerResult)) with
      | Except.error e => Except.error e
      | Except.ok tail =>
        Except.ok ((⟨"drums", ["bc", "bs", "me", "fe", "ff"],
          (extractResult result format').share_link,
          (extractResult result format').audio_url,
          (extractResult result format').request_id⟩ : LayerResult) :: tail)) with
    | Except.error e => Except.error e
    | Except.ok layers =>
        Except.ok (⟨layers, "https://soundraw.io/edit_music?m=base"⟩ :
          AdaptiveLayerOutput)) = _
  rw [h]

/-- Witness for C4's amended theorem: the concrete stubbed client. -/
theorem adaptiveLayers_unknown_rejected_valid_processed_witness :
    handleAdaptiveLayers stubSucceedingClient unknownLayerArgs =
      Except.error "Invalid enum value in layers_to_keep" ∧
    ∃ out, handleAdaptiveLayers stubSucceedingClient
        ⟨"https://soundraw.io/edit_music?m=base", ["drums"], none⟩ =
          Except.ok out ∧
      out.layers.map LayerResult.name = ["drums"] ∧
      out.layers.map LayerResult.mute_stems = [["bc", "bs", "me", "fe", "ff"]] :=
  adaptiveLayers_unknown_rejected_valid_processed stubSucceedingClient
    doneResponse "m4a" rfl

/-- Embeds the input record validated by `GenerateBgmInputSchema`
(src/src/types/index.ts). -/
structure GenerateBgmInput where
  scene : String
  game_genre : String
  intensity : String
  mood : Option String
  duration_seconds : Option ℚ
  engine : Option String
  file_format : Option String
deriving DecidableEq

/-- Embeds `GenerateBgmInputSchema.parse`: intensity from its enum, the
duration (when present) within 10 to 300, and the engine and file-format
enums; any violation makes parsing throw. -/
def parseGenerateBgmInput (raw : GenerateBgmInput) :
    Except String GenerateBgmInput :=
  if ¬ raw.intensity ∈ (["low", "medium", "high"] : List String) then
    Except.error "Invalid enum value in intensity"
  else if raw.duration_seconds.any (fun d => decide (d < 10 ∨ 300 < d)) then
    Except.error "duration_seconds out of range"
  else if raw.engine.any
      (fun e => decide (e ∉ (["unreal", "unity", "godot"] : List String))) then
    Except.error "Invalid enum value in engine"
  else if raw.file_format.any
      (fun f => decide (f ∉ (["m4a", "mp3", "wav"] : List String))) then
    Except.error "Invalid enum value in file_format"
  else Except.ok raw

/-- Embeds `GenerateBgmOutput` from src/src/types/index.ts.  The optional
`integration_code` field, an opaque generated text template, is out of
scope and omitted. -/
structure GenerateBgmOutput where
  share_link : String
  audio_url : String
  request_id : String
  duration_seconds : ℚ
  bpm : ℕ
  timestamps : List EnergySegment
  file_format : String
  deepseek_reasoning : String
  soundraw_params : SoundrawComposeRequest
deriving DecidableEq

/-- Embeds `handleGenerateBgm` from src/unnamed/part_002 (the generate-bgm
tool of the asynchronous design): validate the input, default the
duration to 60 and the format to m4a, run the scene analysis (the
`analyze` parameter abstracts `analyzeSceneForMusic`), build the compose
request with the mapped energy levels, submit it (the `compose` parameter
abstracts `composeMusic`, returning the polled terminal response and the
format), extract the result and assemble the output. -/
def handleGenerateBgm
    (analyze : String → String → String → Option String →
      Except String DeepSeekMusicParams)
    (compose : SoundrawComposeRequest →
      Except String (SoundrawResultResponse × String))
    (args : GenerateBgmInput) : Except String GenerateBgmOutput :=
  match parseGenerateBgmInput args with
  | Except.error e => Except.error e
  | Except.ok input =>
    let duration := input.duration_seconds.getD 60
    let fileFormat := input.file_format.getD "m4a"
    match analyze input.scene input.game_genre input.intensity input.mood with
    | Except.error e => Except.error e
    | Except.ok musicParams =>
      let soundrawParams : SoundrawComposeRequest :=
        ⟨duration, some musicParams.moods, some musicParams.genres,
         some musicParams.themes, some [musicParams.tempo], some [fileFormat],
         none, some (getEnergyLevels musicParams.energy_profile duration)⟩
      match compose soundrawParams with
      | Except.error e => Except.error e
      | Except.ok (resp, format) =>
        let extracted := extractResult resp format
        Except.ok ⟨extracted.share_link, extracted.audio_url,
          extracted.request_id, extracted.duration_seconds, extracted.bpm,
          extracted.timestamps, format, musicParams.reasoning, soundrawParams⟩

/-- The stubbed analysis of the C8 scenario. -/
def bossFightAnalysis : DeepSeekMusicParams :=
  ⟨["Epic", "Dark"], ["Orchestra"], ["Gaming"], "high", "climax",
   "Boss fight scoring"⟩

/-- A stubbed analyzer that immediately returns the boss-fight analysis. -/
def stubAnalyzer : String → String → String → Option String →
    Except String DeepSeekMusicParams :=
  fun _ _ _ _ => Except.ok bossFightAnalysis

/-- The stubbed generation result of the C8 scenario: `done` with a share
link, an m4a URL, bpm `"142"` and length 30. -/
def bossFightResult : SoundrawResult :=
  ⟨"142", "https://soundraw.io/edit_music?m=boss", 30, [],
   some "https://cdn.example/boss.m4a", none, none⟩

/-- A stubbed generation client that immediately returns the done
boss-fight response in format m4a. -/
def stubCompose : SoundrawComposeRequest →
    Except String (SoundrawResultResponse × String) :=
  fun _ => Except.ok (⟨"req-boss", JobStatus.done, some bossFightResult⟩, "m4a")

/-- The C8 scenario arguments. -/
def bossFightArgs : GenerateBgmInput :=
  ⟨"boss_fight", "dark_souls_like", "high", none, some 30, none, none⟩

/-- C8.  The boss-fight `generate_bgm` call with the stubbed analyzer and
the stubbed immediately-done generation client succeeds and yields an
output whose bpm is the integer 142, whose duration is 30 seconds, and
whose submitted compose parameters carry exactly the two-segment climax
profile for duration 30: (0, 7.5, High) then (7.5, 30, Very High). -/
theorem generateBgm_boss_fight_scenario :
    ∃ out, handleGenerateBgm stubAnalyzer stubCompose bossFightArgs =
        Except.ok out ∧
      out.bpm = 142 ∧
      out.duration_seconds = 30 ∧
      out.soundraw_params.energy_levels =
        some [⟨0, 7.5, "High"⟩, ⟨7.5, 30, "Very High"⟩] := by
  refine ⟨(⟨"https://soundraw.io/edit_music?m=boss",
      "https://cdn.example/boss.m4a", "req-boss", 30, 142, [], "m4a",
      "Boss fight scoring",
      ⟨30, some ["Epic", "Dark"], some ["Orchestra"], some ["Gaming"],
       some ["high"], some ["m4a"], none,
       some (getEnergyLevels "climax" 30)⟩⟩ : GenerateBgmOutput),
    ?_, rfl, rfl, ?_⟩
  · rfl
  · show some (getEnergyLevels "climax" 30) = _
    rw [show getEnergyLevels "climax" 30 =
        [⟨0, 30 / 4, "High"⟩, ⟨30 / 4, 30, "Very High"⟩] from rfl]
    norm_num

/-- Embeds the input record validated by `GetVariationsInputSchema`
(src/src/types/index.ts). -/
structure GetVariationsInput where
  share_link : String
  variation_type : String
  length : Option ℚ
  energy_preset : Option String
  mute_stems : Option (List String)
deriving DecidableEq

/-- Embeds `GetVariationsInputSchema.parse`: the variation-type and
energy-preset enums, the 10 to 300 length bound and the stem-code enum;
any violation makes parsing throw. -/
def parseGetVariationsInput (raw : GetVariationsInput) :
    Except String GetVariationsInput :=
  if ¬ raw.variation_type ∈ (["similar", "customize"] : List String) then
    Except.error "Invalid enum value in variation_type"
  else if raw.length.any (fun d => decide (d < 10 ∨ 300 < d)) then
    Except.error "length out of range"
  else if raw.energy_preset.any (fun p => decide
      (p ∉ (["building", "steady", "climax", "fade_out"] : List String))) then
    Except.error "Invalid enum value in energy_preset"
  else if raw.mute_stems.any
      (fun l => !l.all (fun c => decide (c ∈ SOUNDRAW_STEMS))) then
    Except.error "Invalid enum value in mute_stems"
  else Except.ok raw

/-- Embeds the customize-request construction of `handleGetVariations`
(src/src/tools/get-variations.ts): share link, format m4a, energy levels
from the preset when one is supplied — calling the preset mapper with no
duration argument, so its default of 60 applies — and the mute stems when
a nonempty list is supplied. -/
def buildCustomizeParams (input : GetVariationsInput) : SoundrawCustomizeRequest :=
  ⟨input.share_link,
   input.energy_preset.map
     (fun p => getEnergyPreset p getEnergyPresetDefaultDuration),
   match input.mute_stems with
   | some l => if l.length > 0 then some l else none
   | none => none,
   some ["m4a"]⟩

/-- Embeds `VariationOutput` from src/src/types/index.ts. -/
structure VariationOutput where
  share_link : String
  audio_url : String
  request_id : String
  duration_seconds : ℚ
  bpm : ℕ
  variation_type : String
  base_share_link : String
deriving DecidableEq

/-- Embeds `handleGetVariations` from src/src/tools/get-variations.ts:
validate the input, branch on the variation type (the `similar` and
`customize` parameters abstract `createSimilarMusic` and
`customizeMusic`), extract and assemble the output. -/
def handleGetVariations
    (similar : SoundrawSimilarRequest →
      Except String (SoundrawResultResponse × String))
    (customize : SoundrawCustomizeRequest →
      Except String (SoundrawResultResponse × String))
    (args : GetVariationsInput) : Except String VariationOutput :=
  match parseGetVariationsInput args with
  | Except.error e => Except.error e
  | Except.ok input =>
    let call :=
      if input.variation_type = "similar" then
        similar ⟨input.share_link, input.length, none, some ["m4a"],
          input.mute_stems⟩
      else
        customize (buildCustomizeParams input)
    match call with
    | Except.error e => Except.error e
    | Except.ok (result, format) =>
      let extracted := extractResult result format
      Except.ok ⟨extracted.share_link, extracted.audio_url,
        extracted.request_id, extracted.duration_seconds, extracted.bpm,
        input.variation_type, input.share_link⟩

/-- C10.  For every customize variation request that supplies an energy
preset, the energy segment list submitted to the generation service spans
exactly the interval from 0 to 60 seconds, whatever the request's length
field says about the base track: the handler builds the request through
`buildCustomizeParams`, which invokes the preset mapper with its default
duration of 60, and every preset's segments chain from 0 to 60 and cover
exactly that interval. -/
theorem customize_energy_preset_spans_sixty
    (input : GetVariationsInput) (p : String)
    (hp : input.energy_preset = some p) :
    getEnergyPresetDefaultDuration = 60 ∧
    (buildCustomizeParams input).energy_levels =
      some (getEnergyPreset p getEnergyPresetDefaultDuration) ∧
    (∀ segs, (buildCustomizeParams input).energy_levels = some segs →
      chainSpans 0 segs 60 ∧ unionOfSegments segs = Set.Icc 0 60) ∧
    (∀ similar customize,
      parseGetVariationsInput input = Except.ok input →
      input.variation_type = "customize" →
      handleGetVariations similar customize input =
        match customize (buildCustomizeParams input) with
        | Except.error e => Except.error e
        | Except.ok (result, format) =>
          Except.ok ⟨(extractResult result format).share_link,
            (extractResult result format).audio_url,
            (extractResult result format).request_id,
            (extractResult result format).duration_seconds,
            (extractResult result format).bpm,
            input.variation_type, input.share_link⟩) := by
  have hchain : chainSpans 0 (getEnergyPreset p getEnergyPresetDefaultDuration) 60 :=
    getEnergyPreset_chainSpans p 60 (by norm_num)
  refine ⟨rfl, ?_, ?_, ?_⟩
  · simp [buildCustomizeParams, hp]
  · intro segs hsegs
    simp only [buildCustomizeParams, hp, Option.map_some] at hsegs
    injection hsegs with hsegs
    subst hsegs
    exact ⟨hchain,
      chainSpans_union (getEnergyPreset_ne_nil p getEnergyPresetDefaultDuration)
        hchain⟩
  · intro similar customize hparse htype
    show (match parseGetVariationsInput input with
      | Except.error e => Except.error e
      | Except.ok input' =>
        match
          (if input'.variation_type = "similar" then
            similar ⟨input'.share_link, input'.length, none, some ["m4a"],
              input'.mute_stems⟩
          else customize (buildCustomizeParams input')) with
        | Except.error e => Except.error e
        | Except.ok (result, format) =>
          Except.ok (⟨(extractResult result format).share_link,
            (extractResult result format).audio_url,
            (extractResult result format).request_id,
            (extractResult result format).duration_seconds,
            (extractResult result format).bpm,
            input'.variation_type, input'.share_link⟩ : VariationOutput)) = _
    rw [hparse]
    show (match
        (if input.variation_type = "similar" then
          similar ⟨input.share_link, input.length, none, some ["m4a"],
            input.mute_stems⟩
        else customize (buildCustomizeParams input)) with
      | Except.error e => Except.error e
      | Except.ok (result, format) =>
        Except.ok (⟨(extractResult result format).share_link,
          (extractResult result format).audio_url,
          (extractResult result format).request_id,
          (extractResult result format).duration_seconds,
          (extractResult result format).bpm,
          input.variation_type, input.share_link⟩ : VariationOutput)) = _
    rw [htype, if_neg (show ¬ ("customize" = "similar") by decide)]

/-- A customize request with preset building and a length of 120, used to
witness C10 (the 120 does not reach the preset mapper). -/
def buildingPresetInput : GetVariationsInput :=
  ⟨"https://soundraw.io/edit_music?m=base", "customize", some 120,
   some "building", none⟩

/-- Witness for C10: the building-preset request at length 120 still spans
0 to 60. -/
theorem customize_energy_preset_spans_sixty_witness :
    getEnergyPresetDefaultDuration = 60 ∧
    (buildCustomizeParams buildingPresetInput).energy_levels =
      some (getEnergyPreset "building" getEnergyPresetDefaultDuration) ∧
    (∀ segs, (buildCustomizeParams buildingPresetInput).energy_levels =
        some segs →
      chainSpans 0 segs 60 ∧ unionOfSegments segs = Set.Icc 0 60) ∧
    (∀ similar customize,
      parseGetVariationsInput buildingPresetInput =
        Except.ok buildingPresetInput →
      buildingPresetInput.variation_type = "customize" →
      handleGetVariations similar customize buildingPresetInput =
        match customize (buildCustomizeParams buildingPresetInput) with
        | Except.error e => Except.error e
        | Except.ok (result, format) =>
          Except.ok ⟨(extractResult result format).share_link,
            (extractResult result format).audio_url,
            (extractResult result format).request_id,
            (extractResult result format).duration_seconds,
            (extractResult result format).bpm,
            buildingPresetInput.variation_type,
            buildingPresetInput.share_link⟩) :=
  customize_energy_preset_spans_sixty buildingPresetInput "building" rfl

/-- The response returned for one tool call by the dispatch layer: the
serialized text content and the error flag of src/src/services/soundraw.ts
(`createServer`'s call-tool handler, after the MCP server module
separator). -/
structure CallToolResponse where
  text : String
  isError : Bool
deriving DecidableEq

/-- The serialized `JSON.stringify({error: message})` body (escaping of the
message is not modelled). -/
def mkErrorJson (msg : String) : String :=
  "\x7b\"error\":\"" ++ msg ++ "\"\x7d"

/-- Embeds the routing switch of the call-tool handler in `createServer`:
four known tool names go to their handlers (abstracted as the four
function parameters, each returning its serialized result or a thrown
message), anything else throws the unknown-tool error. -/
def routeTool {α : Type} (hGen hVar hLayer hTrans : α → Except String String)
    (name : String) (args : α) : Except String String :=
  if name = "generate_bgm" then hGen args
  else if name = "get_bgm_variations" then hVar args
  else if name = "adaptive_layer_control" then hLayer args
  else if name = "scene_transition_music" then hTrans args
  else Except.error ("Unknown tool: " ++ name)

/-- Embeds the try/catch wrapper of the call-tool handler in
`createServer`: a handler result is serialized into the response text,
and any thrown error is caught and serialized as `{error: message}` with
the error flag set — the dispatcher itself always returns a response. -/
def dispatchTool {α : Type} (hGen hVar hLayer hTrans : α → Except String String)
    (name : String) (args : α) : CallToolResponse :=
  match routeTool hGen hVar hLayer hTrans name args with
  | Except.ok result => ⟨result, false⟩
  | Except.error msg => ⟨mkErrorJson msg, true⟩

/-- C9.  For every tool invocation, the dispatch layer returns a response
rather than propagating an exception: when the routed handler succeeds
the response carries the handler's serialized result with the error flag
clear; when the handler throws — or the tool name is unknown — the
response carries the `{error: message}` object with the error flag set. -/
theorem dispatchTool_never_throws {α : Type}
    (hGen hVar hLayer hTrans : α → Except String String)
    (name : String) (args : α) :
    ((∃ r, routeTool hGen hVar hLayer hTrans name args = Except.ok r ∧
        dispatchTool hGen hVar hLayer hTrans name args = ⟨r, false⟩) ∨
     (∃ msg, routeTool hGen hVar hLayer hTrans name args = Except.error msg ∧
        dispatchTool hGen hVar hLayer hTrans name args =
          ⟨mkErrorJson msg, true⟩)) ∧
    (name ∉ (["generate_bgm", "get_bgm_variations", "adaptive_layer_control",
        "scene_transition_music"] : List String) →
      dispatchTool hGen hVar hLayer hTrans name args =
        ⟨mkErrorJson ("Unknown tool: " ++ name), true⟩) := by
  constructor
  · rcases hr : routeTool hGen hVar hLayer hTrans name args with msg | r
    · exact Or.inr ⟨msg, rfl, by simp [dispatchTool, hr]⟩
    · exact Or.inl ⟨r, rfl, by simp [dispatchTool, hr]⟩
  · intro hname
    simp only [List.mem_cons, List.not_mem_nil, or_false, not_or] at hname
    obtain ⟨h1, h2, h3, h4⟩ := hname
    simp [dispatchTool, routeTool, h1, h2, h3, h4]

/-- Witness for C9: an unknown tool name yields the structured error
response. -/
theorem dispatchTool_never_throws_witness :
    dispatchTool (fun _ : Unit => Except.ok "\x7b\x7d")
        (fun _ => Except.ok "\x7b\x7d") (fun _ => Except.ok "\x7b\x7d")
        (fun _ => Except.ok "\x7b\x7d") "no_such_tool" () =
      ⟨mkErrorJson ("Unknown tool: " ++ "no_such_tool"), true⟩ :=
  (dispatchTool_never_throws (fun _ : Unit => Except.ok "\x7b\x7d")
      (fun _ => Except.ok "\x7b\x7d") (fun _ => Except.ok "\x7b\x7d")
      (fun _ => Except.ok "\x7b\x7d") "no_such_tool" ()).2 (by decide)

end SoundrawBgm
